import Mathlib

/-
  Verification development for the cryptographic artifact bundling subsystem
  of the encrypted-data CLI repository.

  The definitions below are a shallow embedding of the TypeScript sources
  `crypto-ctxt-ser-des.service.ts` and `openfheCommon.service.ts`:
  byte buffers become `List Nat`, JavaScript sparse arrays become
  `List (Option _)` with length extension on out-of-bounds assignment,
  the opaque OpenFHE engine becomes a record of abstract (partial)
  serialization functions, and thrown exceptions become explicit error
  results.
-/

namespace CryptoSerDes

/-- Byte buffers produced and consumed by the engine are modelled as lists
    of bytes; only presence, identity and concatenation matter here. -/
abbrev Buf := List Nat

/- ===== Chunked Transfer Protocol: the caller-side accumulator =====
   Embeds the `onmessage` handler of
   `SchemeSwitchingDataSerializer.createDownloadableFileViaWorker`:
   `chunks[index] = chunk` on a JavaScript array, and the completion test
   `chunks.length === receivedTotalChunks`. -/

/-- JavaScript array assignment `a[i] = v`: in-bounds writes update the slot,
    out-of-bounds writes extend the array with holes so that
    `length = max (length a) (i+1)`. Holes are `none`. -/
def jsSet (a : List (Option Buf)) (i : Nat) (v : Buf) : List (Option Buf) :=
  if i < a.length then a.set i (some v)
  else (a ++ List.replicate (i - a.length) none) ++ [some v]

/-- Concatenation step of the handler: `chunks.forEach` skips holes (and the
    `if (chunk)` guard skips them again), copying present chunks in index
    order into one contiguous buffer. -/
def assemble (a : List (Option Buf)) : Buf :=
  (a.filterMap id).flatten

/-- Caller-side accumulator state: the sparse `chunks` array and the value the
    pending promise was resolved with, if any (`resolve` keeps only its first
    call). -/
structure Acc where
  chunks : List (Option Buf)
  result : Option Buf
deriving Repr, DecidableEq

/-- Initial accumulator: `const chunks: Uint8Array[] = []`, promise pending. -/
def Acc.init : Acc := ⟨[], none⟩

/-- Handler body for one `fileChunk` message carrying `index`, `chunk` and
    `totalChunks`: store the chunk at its index, then resolve with the
    assembled buffer when `chunks.length === receivedTotalChunks`; a promise
    already resolved keeps its first value. -/
def onFileChunk (tc : Nat) (st : Acc) (index : Nat) (chunk : Buf) : Acc :=
  let chunks := jsSet st.chunks index chunk
  let result :=
    if chunks.length = tc then
      match st.result with
      | some r => some r
      | none => some (assemble chunks)
    else st.result
  ⟨chunks, result⟩

/-- Deliver a sequence of `fileChunk` messages (each a pair of index and
    chunk bytes, all carrying the same `totalChunks = tc`) to a fresh
    accumulator. -/
def processChunks (tc : Nat) (msgs : List (Nat × Buf)) : Acc :=
  msgs.foldl (fun st m => onFileChunk tc st m.1 m.2) Acc.init

/-- The set of indices filled so far covers 0..tc-1 exactly when no slot
    among the first tc is a hole and the array is at least that long. -/
def covers (a : List (Option Buf)) (tc : Nat) : Bool :=
  tc ≤ a.length && (a.take tc).all Option.isSome

/- ===== DataAndLocation.setDataDirectory =====
   A JavaScript string is modelled as its list of characters; `!dir` is true
   exactly for the empty string, `dir.slice(-1) === ','`-style last-character
   comparison becomes `getLast?`, and `dir.slice(0, -1)` becomes `dropLast`. -/

/-- Embeds `setDataDirectory`: throw on the empty string, otherwise strip one
    trailing slash if the last character is a slash. -/
def setDataDirectory (dir : List Char) : Except String (List Char) :=
  if dir.isEmpty then .error "dir is an empty string"
  else if dir.getLast? = some '/' then .ok dir.dropLast
  else .ok dir

/- ===== openfheCommon string helpers =====
   A JavaScript string is a finite sequence of UTF-16 code units (values
   below 2^16, lone surrogates allowed). `split` with the empty separator
   cuts it into its one-unit substrings; `charCodeAt(0)` reads the code unit
   at position 0; `String.fromCharCode(n)` builds the one-unit string whose
   unit is `n` reduced modulo 2^16 (ToUint16); `join` concatenates. -/

/-- One UTF-16 code unit. -/
abbrev CodeUnit := Fin 65536

/-- A JavaScript string as its sequence of UTF-16 code units. -/
abbrev JSStr := List CodeUnit

/-- Embeds `inputString.split(the empty separator)`: one singleton string per
    code unit. -/
def jsSplitEach (s : JSStr) : List JSStr :=
  s.map (fun c => [c])

/-- Embeds `char.charCodeAt(0)` as applied to the one-unit strings produced
    by the split (on the empty string the JavaScript result would be NaN,
    which the split never produces; 0 is a dummy for that dead branch). -/
def charCodeAtZero (t : JSStr) : Nat :=
  match t with
  | [] => 0
  | c :: _ => c.val

/-- Embeds `stringToInt`: split into characters, map each to its code unit. -/
def stringToInt (s : JSStr) : List Nat :=
  (jsSplitEach s).map charCodeAtZero

/-- Embeds `String.fromCharCode(num)` for a whole number argument: the
    one-unit string holding ToUint16(num). -/
def fromCharCode (n : Nat) : JSStr :=
  [⟨n % 65536, Nat.mod_lt n (by decide)⟩]

/-- Embeds `intToString`: map each number to its character and join. -/
def intToString (intList : List Nat) : JSStr :=
  (intList.map fromCharCode).flatten

/- ===== Archive (JSZip) model =====
   An archive is its list of named entries; `zip.file(name)` is lookup by
   exact name, `null` when the entry is absent. -/

/-- An archive: a list of (entry name, entry bytes) pairs. -/
structure Zip where
  entries : List (String × Buf)

/-- Embeds `zip.file(name)` followed by reading the entry as a buffer:
    the first entry with that exact name, or none. -/
def Zip.file (z : Zip) (name : String) : Option Buf :=
  (z.entries.find? (fun p => p.1 == name)).map (fun p => p.2)

/- Default logical filenames from `DataAndLocation`. -/

def cryptoContextFile : String := "cryptocontext.txt"
def pubKeyFile : String := "key_pub.txt"
def secretKeyFile : String := "key_secret.txt"
def multKeyFile : String := "key_mult.txt"
def rotKeyFile : String := "key_rot.txt"
def FHEWtoCKKSSwitchKeyFile : String := "key_switch_fhew_ckks.txt"
def binFHECryptoContextFile : String := "binfhe_cryptocontext.txt"
def binFHEBootRefreshKeyFile : String := "key_binfhe_boot_refresh.txt"
def binFHEBootRotKeyFile : String := "key_binfhe_boot_rot.txt"
def baseRefreshKeyFile : String := "key_refresh.txt"
def baseSwitchingKeyFile : String := "key_switching.txt"
def keyIndexFile : String := "key_indices.txt"

/-- Embeds the `CryptoContextBuffers` record: one optional buffer per named
    artifact plus the indexed bootstrap key-pair collection, each entry a
    key with its (BSkey, KSkey) buffer pair. -/
structure CryptoContextBuffers where
  cryptoContextBuffer : Option Buf
  publicKeyBuffer : Option Buf
  secretKeyBuffer : Option Buf
  evalMultKeyBuffer : Option Buf
  automorphismKeyBuffer : Option Buf
  FHEWtoCKKSSwitchKeyBuffer : Option Buf
  binfheCryptoContextBuffer : Option Buf
  binFHEBootRefreshKeyBuffer : Option Buf
  binFHEBootRotKeyBuffer : Option Buf
  keyIndexBuffer : Option Buf
  EvalKeyMappings : List (Nat × Buf × Buf)
deriving Repr, DecidableEq

/-- Initial buffers of a fresh `DataAndLocation` object: every named buffer
    null, the mapping collection empty. -/
def initBuffers : CryptoContextBuffers :=
  ⟨none, none, none, none, none, none, none, none, none, none, []⟩

/- ===== Archiver unpack: SchemeSwitchingDataSerializer.uploadFile =====
   Reads nine named entries from the archive into the buffer record; an
   absent entry stores null (`content || null` after an optional-chained
   read). The secret-key entry is never read, and `EvalKeyMappings` is left
   untouched. -/

/-- Embeds `uploadFile` restricted to its effect on the buffer record. -/
def uploadFile (z : Zip) (bufs : CryptoContextBuffers) : CryptoContextBuffers :=
  { bufs with
    cryptoContextBuffer := z.file cryptoContextFile
    publicKeyBuffer := z.file pubKeyFile
    evalMultKeyBuffer := z.file multKeyFile
    automorphismKeyBuffer := z.file rotKeyFile
    FHEWtoCKKSSwitchKeyBuffer := z.file FHEWtoCKKSSwitchKeyFile
    binfheCryptoContextBuffer := z.file binFHECryptoContextFile
    binFHEBootRefreshKeyBuffer := z.file binFHEBootRefreshKeyFile
    binFHEBootRotKeyBuffer := z.file binFHEBootRotKeyFile
    keyIndexBuffer := z.file keyIndexFile }

/- ===== Serializer: SchemeSwitchingDataSerializer.Serialize =====
   The OpenFHE engine is opaque: each export operation either yields a
   buffer or a falsy value (modelled as an Option). The bootstrap key map
   is the engine-reported ordered list of (index, BSkey export, KSkey
   export); `serIndexList` is `SerializeSeedSeqVector` on the accumulated
   index vector. The `has*` flags model the null checks at the top of
   `Serialize`. -/

/-- Opaque serialization-side engine state. -/
structure SEngine where
  hasModule : Bool
  hasCC : Bool
  hasPub : Bool
  hasSec : Bool
  hasBinCC : Bool
  hasSwk : Bool
  serCC : Option Buf
  serPub : Option Buf
  serSec : Option Buf
  serMult : Option Buf
  serRot : Option Buf
  serSwk : Option Buf
  serBinCC : Option Buf
  serBootRefresh : Option Buf
  serBootRot : Option Buf
  bootPairs : List (Nat × Option Buf × Option Buf)
  serIndexList : List Nat → Option Buf

/-- The bootstrap-key loop of `Serialize`: for each engine-reported map
    entry, serialize the BSkey then the KSkey (throwing on a falsy result),
    push the mapping, and push the index onto the index vector. -/
def bootLoop : List (Nat × Option Buf × Option Buf) →
    Except String (List (Nat × Buf × Buf) × List Nat)
  | [] => .ok ([], [])
  | (thekey, bs, ks) :: rest =>
    match bs with
    | none => .error "Exception writing BSkey to buffer"
    | some bsBuf =>
      match ks with
      | none => .error "Exception writing KSkey to buffer"
      | some ksBuf =>
        match bootLoop rest with
        | .error e => .error e
        | .ok (maps, idxs) => .ok ((thekey, bsBuf, ksBuf) :: maps, thekey :: idxs)

/-- Embeds `Serialize`: null-checks, then the fixed sequence of export
    operations each guarded by a falsy check with its named error, then the
    bootstrap loop, then serialization of the index vector. On success the
    populated buffer record is paired with the raw index vector that was
    serialized into `keyIndexBuffer`. -/
def Serialize (e : SEngine) : Except String (CryptoContextBuffers × List Nat) :=
  if e.hasModule = false then .error "OPENFHE module is None"
  else if e.hasCC = false then .error "cryptoContext is None"
  else if e.hasPub = false then .error "publicKey is None"
  else if e.hasSec = false then .error "secretKey is None"
  else if e.hasBinCC = false then .error "binFHECryptoContext is None"
  else if e.hasSwk = false then .error "FHEWtoCKKSSwitchKey is None"
  else match e.serCC with
  | none => .error "Exception writing cryptocontext to buffer"
  | some ccBuf =>
  match e.serPub with
  | none => .error "Exception writing publicKey to buffer"
  | some pubBuf =>
  match e.serSec with
  | none => .error "Exception writing secretKey to buffer"
  | some secBuf =>
  match e.serMult with
  | none => .error "Error writing eval mult keys to buffer"
  | some multBuf =>
  match e.serRot with
  | none => .error "Error writing rotation keys to buffer"
  | some rotBuf =>
  match e.serSwk with
  | none => .error "Exception writing FHEWtoCKKSSwitchKey to buffer"
  | some swkBuf =>
  match e.serBinCC with
  | none => .error "Exception writing binFHECryptoContext to buffer"
  | some binBuf =>
  match e.serBootRefresh with
  | none => .error "Exception writing binFHEBootRefreshKey to buffer"
  | some refBuf =>
  match e.serBootRot with
  | none => .error "Exception writing binFHEBootRotKey to buffer"
  | some brotBuf =>
  match bootLoop e.bootPairs with
  | .error e => .error e
  | .ok (maps, idxs) =>
  match e.serIndexList idxs with
  | none => .error "Exception writing indices to buffer"
  | some idxBuf =>
    .ok (⟨some ccBuf, some pubBuf, some secBuf, some multBuf, some rotBuf,
          some swkBuf, some binBuf, some refBuf, some brotBuf, some idxBuf,
          maps⟩, idxs)

/- ===== Deserializer: SchemeSwitchingDataDeserializer.deserialize =====
   The engine's deserialize operations either yield an opaque handle
   (modelled as a Nat) or a falsy value. Mutations performed on the
   reconstructed objects (installing the mult/rotation keys, SetSwkFC,
   BTKeyLoad, per-index BTKeyMapLoadSingleElement, SetBinCCForSchemeSwitch)
   are recorded as an event log, since a thrown error leaves mutations
   already performed in place. -/

/-- Mutation events on the reconstructed context objects. -/
inductive DEv where
  | loadMult : DEv
  | loadRot : DEv
  | setSwkFC : DEv
  | btKeyLoad : DEv
  | btKeyMapLoad : Nat → DEv
  | setBinCC : DEv
deriving Repr, DecidableEq

/-- Deserializer object state: the fields assigned on `this` plus the log of
    mutations applied to reconstructed engine objects. -/
structure DState where
  cryptoContext : Option Nat
  publicKey : Option Nat
  secretKey : Option Nat
  FHEWtoCKKSSwitchKey : Option Nat
  binFHECryptoContext : Option Nat
  events : List DEv
deriving Repr, DecidableEq

/-- State of a fresh deserializer: nothing assigned, nothing mutated. -/
def DState.init : DState := ⟨none, none, none, none, none, []⟩

/-- Opaque deserialization-side engine. -/
structure DEngine where
  deserCC : Buf → Option Nat
  deserPub : Buf → Option Nat
  deserSec : Buf → Option Nat
  deserSwk : Buf → Option Nat
  deserBinCC : Buf → Option Nat
  deserRefresh : Buf → Option Nat
  deserSwitching : Buf → Option Nat
  deserIndexList : Buf → Option (List Nat)

/-- Embeds the inner `deserializeFile` helper: missing entry throws a
    not-found error naming the file, a falsy engine result throws a
    deserialization error naming the file. -/
def deserializeFile (z : Zip) (filename : String) (f : Buf → Option α) :
    Except String α :=
  match z.file filename with
  | none => .error ("File " ++ filename ++ " not found in the zip")
  | some fileData =>
    match f fileData with
    | none => .error ("Error deserializing from " ++ filename)
    | some success => .ok success

/-- Embeds `createMapFileNameDeserialize`: prefix the base filename with the
    index and an underscore. -/
def createMapFileNameDeserialize (index : Nat) (baseFileName : String) : String :=
  toString index ++ "_" ++ baseFileName

/-- The per-index loop of `deserialize`: for each recovered index read and
    deserialize its refresh-key and switching-key entries (both mandatory),
    then load the pair into the bootstrap map at that index. -/
def loadIndexedKeys (eng : DEngine) (z : Zip) (indices : List Nat)
    (st : DState) : DState × Option String :=
  indices.foldl
    (fun cur index =>
      match cur with
      | (st, some e) => (st, some e)
      | (st, none) =>
        match deserializeFile z (createMapFileNameDeserialize index baseRefreshKeyFile)
            eng.deserRefresh with
        | .error e => (st, some e)
        | .ok _bs =>
          match deserializeFile z (createMapFileNameDeserialize index baseSwitchingKeyFile)
              eng.deserSwitching with
          | .error e => (st, some e)
          | .ok _ks =>
            ({ st with events := st.events ++ [DEv.btKeyMapLoad index] }, none))
    (st, none)

/-- Embeds `deserialize`: the strict step sequence of the source, threading
    the object state and stopping at the first thrown error (which leaves
    the state reached so far in place). -/
def deserialize (eng : DEngine) (z : Zip) : DState × Option String :=
  match deserializeFile z cryptoContextFile eng.deserCC with
  | .error e => (DState.init, some e)
  | .ok cc =>
    let st1 := { DState.init with cryptoContext := some cc }
    match deserializeFile z pubKeyFile eng.deserPub with
    | .error e => (st1, some e)
    | .ok pk =>
      let st2 := { st1 with publicKey := some pk }
      match deserializeFile z secretKeyFile eng.deserSec with
      | .error e => (st2, some e)
      | .ok sk =>
        let st3 := { st2 with secretKey := some sk }
        let st4 := match z.file multKeyFile with
          | some _ => { st3 with events := st3.events ++ [DEv.loadMult] }
          | none => st3
        let st5 := match z.file rotKeyFile with
          | some _ => { st4 with events := st4.events ++ [DEv.loadRot] }
          | none => st4
        match deserializeFile z FHEWtoCKKSSwitchKeyFile eng.deserSwk with
        | .error e => (st5, some e)
        | .ok swk =>
          let st6 := { st5 with FHEWtoCKKSSwitchKey := some swk,
                                events := st5.events ++ [DEv.setSwkFC] }
          match deserializeFile z binFHECryptoContextFile eng.deserBinCC with
          | .error e => (st6, some e)
          | .ok bin =>
            let st7 := { st6 with binFHECryptoContext := some bin }
            match deserializeFile z binFHEBootRefreshKeyFile eng.deserRefresh with
            | .error e => (st7, some e)
            | .ok _bsk =>
              match deserializeFile z binFHEBootRotKeyFile eng.deserSwitching with
              | .error e => (st7, some e)
              | .ok _ksk =>
                let st8 := { st7 with events := st7.events ++ [DEv.btKeyLoad] }
                match deserializeFile z keyIndexFile eng.deserIndexList with
                | .error e => (st8, some e)
                | .ok indices =>
                  if indices.length = 0 then
                    (st8, some ("Error deserializing from " ++ keyIndexFile ++
                                ". No indices found."))
                  else
                    match loadIndexedKeys eng z indices st8 with
                    | (st9, some e) => (st9, some e)
                    | (st9, none) =>
                      ({ st9 with events := st9.events ++ [DEv.setBinCC] }, none)

/- ===== Concrete fixtures used by the witnesses ===== -/

/-- A fully-initialized engine whose very first export (the context) returns
    a falsy buffer. -/
def sengineMissingCC : SEngine :=
  ⟨true, true, true, true, true, true,
   none, none, none, none, none, none, none, none, none, [], fun _ => none⟩

/-- A fully-initialized engine on which every export succeeds, reporting two
    bootstrap pairs with indices 5 and 0. -/
def sengineBoot : SEngine :=
  ⟨true, true, true, true, true, true,
   some [1], some [2], some [3], some [4], some [5],
   some [6], some [7], some [8], some [9],
   [(5, some [50], some [51]), (0, some [60], some [61])],
   fun idxs => some (0 :: idxs)⟩

/-- A fully-initialized engine on which every export succeeds and whose
    bootstrap map is empty. -/
def sengineEmptyBoot : SEngine :=
  ⟨true, true, true, true, true, true,
   some [1], some [2], some [3], some [4], some [5],
   some [6], some [7], some [8], some [9],
   [], fun idxs => some (0 :: idxs)⟩

/-- A deserialization engine accepting every buffer, recovering the index
    list [0]. -/
def dengineTotal : DEngine :=
  ⟨fun _ => some 1, fun _ => some 2, fun _ => some 3, fun _ => some 4,
   fun _ => some 5, fun _ => some 6, fun _ => some 7, fun _ => some [0]⟩

/-- A deserialization engine accepting every buffer but recovering an empty
    index list. -/
def dengineEmptyIdx : DEngine :=
  ⟨fun _ => some 1, fun _ => some 2, fun _ => some 3, fun _ => some 4,
   fun _ => some 5, fun _ => some 6, fun _ => some 7, fun _ => some []⟩

/-- An archive containing every mandatory entry plus the indexed entries for
    index 0, but neither the mult-key nor the rotation-key entry. -/
def zMandatory : Zip :=
  ⟨[(cryptoContextFile, [1]), (pubKeyFile, [1]), (secretKeyFile, [1]),
    (FHEWtoCKKSSwitchKeyFile, [1]), (binFHECryptoContextFile, [1]),
    (binFHEBootRefreshKeyFile, [1]), (binFHEBootRotKeyFile, [1]),
    (keyIndexFile, [1]),
    ("0_key_refresh.txt", [1]), ("0_key_switching.txt", [1])]⟩

/- ===== Helper lemmas ===== -/

/-- The bootstrap loop, when it succeeds, records exactly one mapping and
    one index per engine-reported pair, in engine-reported order. -/
lemma bootLoop_ok_spec : ∀ (ps : List (Nat × Option Buf × Option Buf)) maps idxs,
    bootLoop ps = .ok (maps, idxs) →
    maps.map Prod.fst = ps.map Prod.fst ∧ idxs = ps.map Prod.fst := by
  intro ps
  induction ps with
  | nil =>
    intro maps idxs h
    simp [bootLoop] at h
    simp [h.1, h.2]
  | cons p rest ih =>
    intro maps idxs h
    obtain ⟨k, bs, ks⟩ := p
    cases bs with
    | none => simp [bootLoop] at h
    | some bsb =>
      cases ks with
      | none => simp [bootLoop] at h
      | some ksb =>
        cases hrest : bootLoop rest with
        | error e => simp [bootLoop, hrest] at h
        | ok pr =>
          obtain ⟨m, i⟩ := pr
          simp [bootLoop, hrest] at h
          obtain ⟨ihm, ihi⟩ := ih m i hrest
          obtain ⟨hm, hi⟩ := h
          subst hm hi
          simp [ihm, ihi]

/-- A successful `Serialize` run got its mapping collection and its raw index
    vector from a successful bootstrap loop. -/
lemma Serialize_ok_inv (e : SEngine) (bufs : CryptoContextBuffers) (idxs : List Nat)
    (hok : Serialize e = .ok (bufs, idxs)) :
    bootLoop e.bootPairs = .ok (bufs.EvalKeyMappings, idxs) := by
  unfold Serialize at hok
  repeat' split at hok
  all_goals simp_all
  rw [← hok.1]

/-- The per-index loop leaves every field but the event log untouched and,
    when both entries of every listed index deserialize, succeeds appending
    one bootstrap-map load event per index, in list order. -/
lemma loadIndexedKeys_ok (eng : DEngine) (z : Zip) :
    ∀ (indices : List Nat) (st : DState),
    (∀ i ∈ indices,
      (∃ v, deserializeFile z (createMapFileNameDeserialize i baseRefreshKeyFile)
        eng.deserRefresh = .ok v) ∧
      (∃ v, deserializeFile z (createMapFileNameDeserialize i baseSwitchingKeyFile)
        eng.deserSwitching = .ok v)) →
    loadIndexedKeys eng z indices st =
      ({ st with events := st.events ++ indices.map DEv.btKeyMapLoad }, none) := by
  intro indices
  induction indices with
  | nil => intro st h; simp [loadIndexedKeys]
  | cons i rest ih =>
    intro st h
    obtain ⟨⟨v1, hv1⟩, v2, hv2⟩ := h i (List.mem_cons_self i rest)
    have hstep : loadIndexedKeys eng z (i :: rest) st =
        loadIndexedKeys eng z rest
          { st with events := st.events ++ [DEv.btKeyMapLoad i] } := by
      simp [loadIndexedKeys, hv1, hv2]
    rw [hstep, ih _ (fun j hj => h j (List.mem_cons_of_mem i hj))]
    simp

/-- Full evaluation of `deserialize` when every mandatory step succeeds: the
    run succeeds, assigns all five object fields, and its mutation log holds
    the optional mult/rotation installs (exactly when their entries exist),
    the switch-key attach, the primary bootstrap-key load, one bootstrap-map
    load per recovered index, and the final secondary-context bind. -/
lemma deserialize_ok_spec (eng : DEngine) (z : Zip)
    (ccv pkv skv swkv binv bskv kskv : Nat) (indices : List Nat)
    (hcc : deserializeFile z cryptoContextFile eng.deserCC = .ok ccv)
    (hpk : deserializeFile z pubKeyFile eng.deserPub = .ok pkv)
    (hsk : deserializeFile z secretKeyFile eng.deserSec = .ok skv)
    (hswk : deserializeFile z FHEWtoCKKSSwitchKeyFile eng.deserSwk = .ok swkv)
    (hbin : deserializeFile z binFHECryptoContextFile eng.deserBinCC = .ok binv)
    (hbsk : deserializeFile z binFHEBootRefreshKeyFile eng.deserRefresh = .ok bskv)
    (hksk : deserializeFile z binFHEBootRotKeyFile eng.deserSwitching = .ok kskv)
    (hidx : deserializeFile z keyIndexFile eng.deserIndexList = .ok indices)
    (hne : indices ≠ [])
    (hloop : ∀ i ∈ indices,
      (∃ v, deserializeFile z (createMapFileNameDeserialize i baseRefreshKeyFile)
        eng.deserRefresh = .ok v) ∧
      (∃ v, deserializeFile z (createMapFileNameDeserialize i baseSwitchingKeyFile)
        eng.deserSwitching = .ok v)) :
    deserialize eng z =
      ({ cryptoContext := some ccv, publicKey := some pkv, secretKey := some skv,
         FHEWtoCKKSSwitchKey := some swkv, binFHECryptoContext := some binv,
         events :=
           (if (z.file multKeyFile).isSome then [DEv.loadMult] else []) ++
           (if (z.file rotKeyFile).isSome then [DEv.loadRot] else []) ++
           [DEv.setSwkFC, DEv.btKeyLoad] ++
           indices.map DEv.btKeyMapLoad ++ [DEv.setBinCC] }, none) := by
  have hlen : ¬indices.length = 0 := by simpa [List.length_eq_zero] using hne
  cases hm : z.file multKeyFile <;> cases hr : z.file rotKeyFile <;>
    simp [deserialize, DState.init, hcc, hpk, hsk, hswk, hbin, hbsk, hksk, hidx,
      hm, hr, hlen, loadIndexedKeys_ok eng z indices _ hloop]

/- ===== Theorems ===== -/

/-- C1: the claim states that the accumulator never declares completion while
    the filled index set fails to cover 0..totalChunks-1. The code instead
    tests `chunks.length === totalChunks`, and a JavaScript out-of-bounds
    assignment sets the length to index+1: delivering the single message
    (index 2, bytes [9]) with totalChunks = 3 resolves the promise (with the
    lone chunk) although slots 0 and 1 are holes. -/
theorem c1_false_completion_on_missing_indices :
    (processChunks 3 [(2, [9])]).result = some [9] ∧
    covers (processChunks 3 [(2, [9])]).chunks 3 = false ∧
    (processChunks 3 [(2, [9])]).chunks = [none, none, some [9]] := by
  decide

/-- C2: the claim states that delivering the worker's chunks in a permuted
    order (e.g. [2,0,1] for totalChunks = 3) assembles the same bytes as
    in-order delivery. In-order delivery of chunks [1], [2], [3] resolves
    with [1,2,3], but the permuted order [2,0,1] resolves as soon as index 2
    arrives — with [3] alone — so the assembled byte sequences differ. -/
theorem c2_permuted_delivery_differs_from_in_order :
    (processChunks 3 [(0, [1]), (1, [2]), (2, [3])]).result = some [1, 2, 3] ∧
    (processChunks 3 [(2, [3]), (0, [1]), (1, [2])]).result = some [3] ∧
    List.Perm [(2, [3]), (0, [1]), (1, [2])]
      ([(0, [1]), (1, [2]), (2, [3])] : List (Nat × Buf)) ∧
    (processChunks 3 [(2, [3]), (0, [1]), (1, [2])]).result ≠
      (processChunks 3 [(0, [1]), (1, [2]), (2, [3])]).result := by
  decide

/-- C7 counterexample: the claim states that unpack attempts to read an entry
    for each fixed logical filename and stores an absent buffer when the
    entry is missing. The secret-key entry is never read: unpacking an empty
    archive into a buffer record whose secret-key buffer holds [7] leaves
    [7] in place, although the archive has no secret-key entry. -/
theorem c7_secret_key_never_read_counterexample :
    Zip.file ⟨[]⟩ secretKeyFile = none ∧
    (uploadFile ⟨[]⟩
      { initBuffers with secretKeyBuffer := some [7] }).secretKeyBuffer = some [7] := by
  decide

/-- C7 amended: unpack reads an entry for nine of the ten fixed logical
    filenames — all but the secret-key file — storing, for each, the
    archive's entry when present and an absent buffer when not, never an
    error; the secret-key buffer and the bootstrap mapping collection are
    left untouched. -/
theorem c7_unpack_reads_nine_fixed_entries (z : Zip) (bufs : CryptoContextBuffers) :
    (uploadFile z bufs).cryptoContextBuffer = z.file cryptoContextFile ∧
    (uploadFile z bufs).publicKeyBuffer = z.file pubKeyFile ∧
    (uploadFile z bufs).evalMultKeyBuffer = z.file multKeyFile ∧
    (uploadFile z bufs).automorphismKeyBuffer = z.file rotKeyFile ∧
    (uploadFile z bufs).FHEWtoCKKSSwitchKeyBuffer = z.file FHEWtoCKKSSwitchKeyFile ∧
    (uploadFile z bufs).binfheCryptoContextBuffer = z.file binFHECryptoContextFile ∧
    (uploadFile z bufs).binFHEBootRefreshKeyBuffer = z.file binFHEBootRefreshKeyFile ∧
    (uploadFile z bufs).binFHEBootRotKeyBuffer = z.file binFHEBootRotKeyFile ∧
    (uploadFile z bufs).keyIndexBuffer = z.file keyIndexFile ∧
    (uploadFile z bufs).secretKeyBuffer = bufs.secretKeyBuffer ∧
    (uploadFile z bufs).EvalKeyMappings = bufs.EvalKeyMappings := by
  exact ⟨rfl, rfl, rfl, rfl, rfl, rfl, rfl, rfl, rfl, rfl, rfl⟩

/-- C9: `setDataDirectory` throws on the empty string and otherwise stores
    its argument with at most one trailing slash removed: a directory ending
    in a slash is stored without its final character (so one ending in two
    slashes still ends in a slash), and one not ending in a slash is stored
    unchanged. -/
theorem c9_setDataDirectory_spec (dir : List Char) :
    (dir = [] → setDataDirectory dir = .error "dir is an empty string") ∧
    (dir ≠ [] → dir.getLast? = some '/' →
      setDataDirectory dir = .ok dir.dropLast) ∧
    (dir ≠ [] → dir.getLast? ≠ some '/' → setDataDirectory dir = .ok dir) ∧
    (∀ pre, dir = pre ++ ['/', '/'] → setDataDirectory dir = .ok (pre ++ ['/'])) := by
  refine ⟨fun h => by simp [setDataDirectory, h], fun h h2 => ?_, fun h h2 => ?_, ?_⟩
  · simp [setDataDirectory, h, h2]
  · simp [setDataDirectory, h, h2]
  · rintro pre rfl
    have hne : pre ++ ['/', '/'] ≠ [] := by simp
    have hlast : (pre ++ ['/', '/']).getLast? = some '/' := by
      rw [show pre ++ ['/', '/'] = (pre ++ ['/']) ++ ['/'] by simp,
        List.getLast?_concat]
    have hdrop : (pre ++ ['/', '/']).dropLast = pre ++ ['/'] := by
      rw [show pre ++ ['/', '/'] = (pre ++ ['/']) ++ ['/'] by simp,
        List.dropLast_concat]
    simp [setDataDirectory, hne, hlast, hdrop]

/-- C9 witness: the four branches at concrete directories. -/
theorem c9_setDataDirectory_spec_witness :
    setDataDirectory [] = .error "dir is an empty string" ∧
    setDataDirectory ['a', '/'] = .ok ['a'] ∧
    setDataDirectory ['a'] = .ok ['a'] ∧
    setDataDirectory ['a', '/', '/'] = .ok ['a', '/'] :=
  ⟨(c9_setDataDirectory_spec []).1 rfl,
   (c9_setDataDirectory_spec ['a', '/']).2.1 (by decide) (by decide),
   (c9_setDataDirectory_spec ['a']).2.2.1 (by decide) (by decide),
   (c9_setDataDirectory_spec ['a', '/', '/']).2.2.2 ['a'] rfl⟩

/-- C10: the string-encoding helpers round-trip: for every JavaScript string
    (every finite sequence of UTF-16 code units, lone surrogates included),
    `intToString (stringToInt s) = s` — each position is mapped to its code
    unit and each code unit back to its one-unit character. -/
theorem c10_intToString_stringToInt_roundtrip (s : JSStr) :
    intToString (stringToInt s) = s := by
  induction s with
  | nil => rfl
  | cons c rest ih =>
    have hc : fromCharCode (charCodeAtZero [c]) = [c] := by
      simp [fromCharCode, charCodeAtZero, Fin.ext_iff, Nat.mod_eq_of_lt c.isLt]
    calc intToString (stringToInt (c :: rest))
        = fromCharCode (charCodeAtZero [c]) ++ intToString (stringToInt rest) := by
          simp [stringToInt, intToString, jsSplitEach]
      _ = c :: rest := by rw [hc, ih]; rfl

/-- C4: on a fully-initialized engine, whenever an export operation returns
    an empty/absent (falsy) buffer, `Serialize` fails with the error naming
    that artifact — the first failing one in serialization order — and an
    error result never carries a bundle. -/
theorem c4_serialize_fail_fast (e : SEngine)
    (hM : e.hasModule = true) (hC : e.hasCC = true) (hP : e.hasPub = true)
    (hS : e.hasSec = true) (hB : e.hasBinCC = true) (hW : e.hasSwk = true) :
    (∀ msg, Serialize e = .error msg → ¬∃ out, Serialize e = .ok out) ∧
    (e.serCC = none →
      Serialize e = .error "Exception writing cryptocontext to buffer") ∧
    (∀ b1, e.serCC = some b1 → e.serPub = none →
      Serialize e = .error "Exception writing publicKey to buffer") ∧
    (∀ b1 b2, e.serCC = some b1 → e.serPub = some b2 → e.serSec = none →
      Serialize e = .error "Exception writing secretKey to buffer") ∧
    (∀ b1 b2 b3, e.serCC = some b1 → e.serPub = some b2 → e.serSec = some b3 →
      e.serMult = none →
      Serialize e = .error "Error writing eval mult keys to buffer") ∧
    (∀ b1 b2 b3 b4, e.serCC = some b1 → e.serPub = some b2 → e.serSec = some b3 →
      e.serMult = some b4 → e.serRot = none →
      Serialize e = .error "Error writing rotation keys to buffer") ∧
    (∀ b1 b2 b3 b4 b5, e.serCC = some b1 → e.serPub = some b2 → e.serSec = some b3 →
      e.serMult = some b4 → e.serRot = some b5 → e.serSwk = none →
      Serialize e = .error "Exception writing FHEWtoCKKSSwitchKey to buffer") ∧
    (∀ b1 b2 b3 b4 b5 b6, e.serCC = some b1 → e.serPub = some b2 →
      e.serSec = some b3 → e.serMult = some b4 → e.serRot = some b5 →
      e.serSwk = some b6 → e.serBinCC = none →
      Serialize e = .error "Exception writing binFHECryptoContext to buffer") ∧
    (∀ b1 b2 b3 b4 b5 b6 b7, e.serCC = some b1 → e.serPub = some b2 →
      e.serSec = some b3 → e.serMult = some b4 → e.serRot = some b5 →
      e.serSwk = some b6 → e.serBinCC = some b7 → e.serBootRefresh = none →
      Serialize e = .error "Exception writing binFHEBootRefreshKey to buffer") ∧
    (∀ b1 b2 b3 b4 b5 b6 b7 b8, e.serCC = some b1 → e.serPub = some b2 →
      e.serSec = some b3 → e.serMult = some b4 → e.serRot = some b5 →
      e.serSwk = some b6 → e.serBinCC = some b7 → e.serBootRefresh = some b8 →
      e.serBootRot = none →
      Serialize e = .error "Exception writing binFHEBootRotKey to buffer") ∧
    (∀ b1 b2 b3 b4 b5 b6 b7 b8 b9 maps idxs, e.serCC = some b1 →
      e.serPub = some b2 → e.serSec = some b3 → e.serMult = some b4 →
      e.serRot = some b5 → e.serSwk = some b6 → e.serBinCC = some b7 →
      e.serBootRefresh = some b8 → e.serBootRot = some b9 →
      bootLoop e.bootPairs = .ok (maps, idxs) → e.serIndexList idxs = none →
      Serialize e = .error "Exception writing indices to buffer") := by
  refine ⟨?_, ?_, ?_, ?_, ?_, ?_, ?_, ?_, ?_, ?_, ?_⟩
  · rintro msg hmsg ⟨out, hout⟩
    rw [hmsg] at hout
    exact absurd hout (by simp)
  all_goals intros
  all_goals simp_all [Serialize]

/-- C4 witness: a fully-initialized engine whose context export is falsy. -/
theorem c4_serialize_fail_fast_witness :
    Serialize sengineMissingCC = .error "Exception writing cryptocontext to buffer" :=
  (c4_serialize_fail_fast sengineMissingCC rfl rfl rfl rfl rfl rfl).2.1 rfl

/-- C5: after a successful `Serialize` of a fully-initialized engine whose
    bootstrap map has pairwise distinct indices (it is a map), the raw index
    vector serialized into `keyIndexBuffer` lists exactly the indices keyed
    in `EvalKeyMappings`, without duplicates, in engine-reported order. -/
theorem c5_index_integrity (e : SEngine) (bufs : CryptoContextBuffers)
    (idxs : List Nat)
    (hNodup : (e.bootPairs.map Prod.fst).Nodup)
    (hok : Serialize e = .ok (bufs, idxs)) :
    idxs = e.bootPairs.map Prod.fst ∧
    bufs.EvalKeyMappings.map Prod.fst = idxs ∧
    idxs.Nodup := by
  have hinv := Serialize_ok_inv e bufs idxs hok
  obtain ⟨hm, hi⟩ := bootLoop_ok_spec e.bootPairs bufs.EvalKeyMappings idxs hinv
  exact ⟨hi, by rw [hm, hi], hi ▸ hNodup⟩

/-- C5 witness: the two-pair engine with indices 5 and 0. -/
theorem c5_index_integrity_witness :
    ([5, 0] : List Nat) = sengineBoot.bootPairs.map Prod.fst ∧
    ([(5, ([50], [51])), (0, ([60], [61]))] : List (Nat × Buf × Buf)).map Prod.fst
      = [5, 0] ∧
    ([5, 0] : List Nat).Nodup :=
  c5_index_integrity sengineBoot
    ⟨some [1], some [2], some [3], some [4], some [5], some [6], some [7],
     some [8], some [9], some [0, 5, 0],
     [(5, [50], [51]), (0, [60], [61])]⟩
    [5, 0] (by decide) (by rfl)

/-- C3: reconstruction fails whenever the context, public-key or secret-key
    entry is absent from the archive, never reporting success; the error
    names the missing entry (shown for each of the three when reached), and
    a missing context entry fails at the very first step, with the returned
    state equal to the untouched initial state — no field assigned and no
    mutation event, so no secondary state (keys, secondary context,
    bootstrap map) was touched. -/
theorem c3_deserialize_missing_mandatory_fails (eng : DEngine) (z : Zip)
    (h : z.file cryptoContextFile = none ∨ z.file pubKeyFile = none ∨
      z.file secretKeyFile = none) :
    (deserialize eng z).2 ≠ none ∧
    (z.file cryptoContextFile = none →
      deserialize eng z =
        (DState.init, some ("File " ++ cryptoContextFile ++ " not found in the zip"))) ∧
    (∀ v, deserializeFile z cryptoContextFile eng.deserCC = .ok v →
      z.file pubKeyFile = none →
      (deserialize eng z).2 =
        some ("File " ++ pubKeyFile ++ " not found in the zip")) ∧
    (∀ v w, deserializeFile z cryptoContextFile eng.deserCC = .ok v →
      deserializeFile z pubKeyFile eng.deserPub = .ok w →
      z.file secretKeyFile = none →
      (deserialize eng z).2 =
        some ("File " ++ secretKeyFile ++ " not found in the zip")) := by
  refine ⟨?_, ?_, ?_, ?_⟩
  · rcases h with h | h | h
    · simp [deserialize, deserializeFile, h]
    · cases hcc : deserializeFile z cryptoContextFile eng.deserCC with
      | error e => simp [deserialize, hcc]
      | ok v =>
        simp only [deserialize, hcc]
        simp [deserializeFile, h]
    · cases hcc : deserializeFile z cryptoContextFile eng.deserCC with
      | error e => simp [deserialize, hcc]
      | ok v =>
        cases hpk : deserializeFile z pubKeyFile eng.deserPub with
        | error e => simp [deserialize, hcc, hpk]
        | ok w =>
          simp only [deserialize, hcc, hpk]
          simp [deserializeFile, h]
  · intro h0
    simp [deserialize, deserializeFile, h0]
  · intro v hv hpub
    simp only [deserialize, hv]
    simp [deserializeFile, hpub]
  · intro v w hv hw hsec
    simp only [deserialize, hv, hw]
    simp [deserializeFile, hsec]

/-- C3 witness: a context-accepting engine against the empty archive. -/
theorem c3_deserialize_missing_mandatory_fails_witness :
    (deserialize dengineTotal ⟨[]⟩).2 ≠ none ∧
    deserialize dengineTotal ⟨[]⟩ =
      (DState.init, some ("File " ++ cryptoContextFile ++ " not found in the zip")) :=
  ⟨(c3_deserialize_missing_mandatory_fails dengineTotal ⟨[]⟩ (Or.inl rfl)).1,
   (c3_deserialize_missing_mandatory_fails dengineTotal ⟨[]⟩ (Or.inl rfl)).2.1 rfl⟩

/-- C6: an empty bootstrap collection is no error at serialize time —
    `Serialize` succeeds with an empty mapping collection, an empty raw
    index vector, and the (serialized) empty index list in `keyIndexBuffer`;
    but a bundle whose recovered index list deserializes to zero indices
    makes `deserialize` fail with the empty-index-list error after the
    index-list step, rather than succeed. -/
theorem c6_empty_bootstrap_serializes_but_rejected_on_load
    (e : SEngine) (eng : DEngine) (z : Zip)
    (b1 b2 b3 b4 b5 b6 b7 b8 b9 bIdx : Buf)
    (ccv pkv skv swkv binv bskv kskv : Nat)
    (hM : e.hasModule = true) (hC : e.hasCC = true) (hP : e.hasPub = true)
    (hS : e.hasSec = true) (hB : e.hasBinCC = true) (hW : e.hasSwk = true)
    (h1 : e.serCC = some b1) (h2 : e.serPub = some b2) (h3 : e.serSec = some b3)
    (h4 : e.serMult = some b4) (h5 : e.serRot = some b5) (h6 : e.serSwk = some b6)
    (h7 : e.serBinCC = some b7) (h8 : e.serBootRefresh = some b8)
    (h9 : e.serBootRot = some b9)
    (hbp : e.bootPairs = []) (hIdxB : e.serIndexList [] = some bIdx)
    (hcc : deserializeFile z cryptoContextFile eng.deserCC = .ok ccv)
    (hpk : deserializeFile z pubKeyFile eng.deserPub = .ok pkv)
    (hsk : deserializeFile z secretKeyFile eng.deserSec = .ok skv)
    (hswk : deserializeFile z FHEWtoCKKSSwitchKeyFile eng.deserSwk = .ok swkv)
    (hbin : deserializeFile z binFHECryptoContextFile eng.deserBinCC = .ok binv)
    (hbsk : deserializeFile z binFHEBootRefreshKeyFile eng.deserRefresh = .ok bskv)
    (hksk : deserializeFile z binFHEBootRotKeyFile eng.deserSwitching = .ok kskv)
    (hidx0 : deserializeFile z keyIndexFile eng.deserIndexList = .ok []) :
    Serialize e = .ok
      (⟨some b1, some b2, some b3, some b4, some b5, some b6, some b7, some b8,
        some b9, some bIdx, []⟩, []) ∧
    (deserialize eng z).2 =
      some ("Error deserializing from " ++ keyIndexFile ++ ". No indices found.") := by
  constructor
  · simp [Serialize, hM, hC, hP, hS, hB, hW, h1, h2, h3, h4, h5, h6, h7, h8, h9,
      hbp, bootLoop, hIdxB]
  · cases hm : z.file multKeyFile <;> cases hr : z.file rotKeyFile <;>
      simp [deserialize, hcc, hpk, hsk, hswk, hbin, hbsk, hksk, hidx0, hm, hr]

/-- C6 witness: the empty-bootstrap engine serializes; the archive whose
    index list deserializes to zero indices is rejected on load. -/
theorem c6_empty_bootstrap_serializes_but_rejected_on_load_witness :
    Serialize sengineEmptyBoot = .ok
      (⟨some [1], some [2], some [3], some [4], some [5], some [6], some [7],
        some [8], some [9], some [0], []⟩, []) ∧
    (deserialize dengineEmptyIdx zMandatory).2 =
      some ("Error deserializing from " ++ keyIndexFile ++ ". No indices found.") :=
  c6_empty_bootstrap_serializes_but_rejected_on_load
    sengineEmptyBoot dengineEmptyIdx zMandatory
    [1] [2] [3] [4] [5] [6] [7] [8] [9] [0]
    1 2 3 4 5 6 7
    rfl rfl rfl rfl rfl rfl rfl rfl rfl rfl rfl rfl rfl rfl rfl rfl rfl
    rfl rfl rfl rfl rfl rfl rfl rfl

/-- C8: the mult-key and rotation-key entries are optional — whenever every
    mandatory step of the reconstruction succeeds, `deserialize` succeeds
    whether or not those two entries exist, and each is installed onto the
    reconstructed context exactly when its entry is present. -/
theorem c8_optional_mult_rot_keys (eng : DEngine) (z : Zip)
    (ccv pkv skv swkv binv bskv kskv : Nat) (indices : List Nat)
    (hcc : deserializeFile z cryptoContextFile eng.deserCC = .ok ccv)
    (hpk : deserializeFile z pubKeyFile eng.deserPub = .ok pkv)
    (hsk : deserializeFile z secretKeyFile eng.deserSec = .ok skv)
    (hswk : deserializeFile z FHEWtoCKKSSwitchKeyFile eng.deserSwk = .ok swkv)
    (hbin : deserializeFile z binFHECryptoContextFile eng.deserBinCC = .ok binv)
    (hbsk : deserializeFile z binFHEBootRefreshKeyFile eng.deserRefresh = .ok bskv)
    (hksk : deserializeFile z binFHEBootRotKeyFile eng.deserSwitching = .ok kskv)
    (hidx : deserializeFile z keyIndexFile eng.deserIndexList = .ok indices)
    (hne : indices ≠ [])
    (hloop : ∀ i ∈ indices,
      (∃ v, deserializeFile z (createMapFileNameDeserialize i baseRefreshKeyFile)
        eng.deserRefresh = .ok v) ∧
      (∃ v, deserializeFile z (createMapFileNameDeserialize i baseSwitchingKeyFile)
        eng.deserSwitching = .ok v)) :
    (deserialize eng z).2 = none ∧
    (DEv.loadMult ∈ (deserialize eng z).1.events ↔ (z.file multKeyFile).isSome) ∧
    (DEv.loadRot ∈ (deserialize eng z).1.events ↔ (z.file rotKeyFile).isSome) := by
  rw [deserialize_ok_spec eng z ccv pkv skv swkv binv bskv kskv indices
    hcc hpk hsk hswk hbin hbsk hksk hidx hne hloop]
  cases hm : z.file multKeyFile <;> cases hr : z.file rotKeyFile <;> simp [hm, hr]

/-- C8 witness: the all-accepting engine against the archive holding every
    mandatory entry but neither optional key entry. -/
theorem c8_optional_mult_rot_keys_witness :
    (deserialize dengineTotal zMandatory).2 = none ∧
    (DEv.loadMult ∈ (deserialize dengineTotal zMandatory).1.events ↔
      (zMandatory.file multKeyFile).isSome) ∧
    (DEv.loadRot ∈ (deserialize dengineTotal zMandatory).1.events ↔
      (zMandatory.file rotKeyFile).isSome) :=
  c8_optional_mult_rot_keys dengineTotal zMandatory 1 2 3 4 5 6 7 [0]
    rfl rfl rfl rfl rfl rfl rfl rfl (by decide)
    (by
      intro i hi
      simp at hi
      subst hi
      exact ⟨⟨6, rfl⟩, ⟨7, rfl⟩⟩)

end CryptoSerDes
